import Mathlib

/-!
Verification of the background-monitoring coordination layer of the
`trains` repository (files `clearml/utilities/process/mp.py` and
`trains/utilities/seed.py`), via a shallow embedding in Lean 4.

The embedding translates the Python classes `SafeQueue`, `SingletonLock`
and `BackgroundMonitor`, and the function `make_deterministic`, into pure
Lean functions over explicit state records.  Python `None` is modelled by
`Option`, Python truthiness by explicit coercions, exceptions raised by
collaborators (psutil, Process handles) by `Except`/`Option` fields of an
environment record, and machine process ids by `Nat`.
-/

namespace Trains

/-! ## Process liveness model (psutil facade)

`BackgroundMonitor.is_subprocess_alive` consults the OS through
`Process.is_alive`, `psutil.Process(pid).status()` and
`psutil.Process(parent).children(recursive=True)`.  We model those
observations as an environment record; each fallible call is an
`Except Unit _` (the `error` case is the call raising). -/

/-- Status of an OS process as reported by psutil (`STATUS_ZOMBIE` vs
anything else is the only distinction the code makes). -/
inductive ProcStatus
  | zombie
  | running
  | sleeping
  | dead
deriving DecidableEq, Repr

/-- Observations `is_subprocess_alive` can make about the OS.
`handleAlive` is `cls._main_process.is_alive()` (may raise);
`mainStatus` is `psutil.Process(cls._main_process.pid).status()` (may
raise); `parentFound` is whether `psutil.Process(cls._parent_pid)`
succeeds (a `psutil.Error` is the only exception that branch catches);
`descendants` is `parent.children(recursive=True)` as `(pid, status)`
pairs in iteration order. -/
structure ProcEnv where
  handleAlive : Except Unit Bool
  mainStatus : Except Unit ProcStatus
  parentFound : Bool
  descendants : List (Nat × ProcStatus)
deriving Repr

/-- The `try` body of `is_subprocess_alive`:
`cls._main_process.is_alive() and psutil.Process(pid).status() != STATUS_ZOMBIE`.
Python `and` short-circuits, so when `is_alive()` returns `False` the
status call is never made and cannot raise. -/
def directCheck (env : ProcEnv) : Except Unit Bool :=
  match env.handleAlive with
  | Except.error e => Except.error e
  | Except.ok false => Except.ok false
  | Except.ok true =>
    match env.mainStatus with
    | Except.error e => Except.error e
    | Except.ok st => Except.ok (decide (st ≠ ProcStatus.zombie))

/-- The fallback loop of `is_subprocess_alive`:
`for child in parent.children(recursive=True): if child.pid == current_pid:
return child.status() != psutil.STATUS_ZOMBIE` followed by `return False`.
Returns at the first descendant whose pid matches. -/
def scanDescendants : List (Nat × ProcStatus) → Nat → Bool
  | [], _ => false
  | (pid, st) :: rest, target =>
    if pid = target then decide (st ≠ ProcStatus.zombie)
    else scanDescendants rest target

/-- `BackgroundMonitor.is_subprocess_alive` (mp.py lines 239-259).
`mainProcess` is `cls._main_process` as `Option pid`.  The Python
function returns `False`, `True`, or bare `return` (i.e. `None`); we
model the result as `Option Bool` with `none` for Python `None`. -/
def is_subprocess_alive (env : ProcEnv) (mainProcess : Option Nat) : Option Bool :=
  match mainProcess with
  | Option.none => some false
  | some currentPid =>
    match directCheck env with
    | Except.ok b => some b
    | Except.error _ =>
      if env.parentFound then some (scanDescendants env.descendants currentPid)
      else Option.none

/-- Python truthiness of a value that is `None`, `False` or `True`. -/
def truthy : Option Bool → Bool
  | Option.none => false
  | some b => b

/-! ## BackgroundMonitor instance state -/

/-- The `_thread` attribute of a `BackgroundMonitor`: `None`, the literal
`True` (set by `start()` before any execution unit exists), or an actual
`Thread` object carrying its liveness.  `None` is falsy, `True` and any
`Thread` object (alive or not) are truthy. -/
inductive ThreadField
  | null
  | flag
  | thread (alive : Bool)
deriving DecidableEq, Repr

/-- Python truthiness of the `_thread` field (`if not self._thread`). -/
def ThreadField.isTruthy : ThreadField → Bool
  | ThreadField.null => false
  | ThreadField.flag => true
  | ThreadField.thread _ => true

/-- `isinstance(self._thread, Thread)`. -/
def ThreadField.isThread : ThreadField → Bool
  | ThreadField.thread _ => true
  | _ => false

/-- `isinstance(self._thread, Thread) and self._thread.is_alive()`. -/
def ThreadField.isLiveThread : ThreadField → Bool
  | ThreadField.thread alive => alive
  | _ => false

/-- One `BackgroundMonitor` instance.  `id` models Python object
identity (used by `self._instances.remove(self)`); the three event
fields record whether each event is set; `subprocess` is the
`_subprocess` attribute (`None` initially, `True` after
`set_subprocess_mode`). -/
structure Monitor where
  id : Nat
  event : Bool
  doneEv : Bool
  startEv : Bool
  thread : ThreadField
  subprocess : Bool
  waitTimeout : Nat
deriving DecidableEq, Repr

/-- Class-level `BackgroundMonitor` state: `_main_process` (as the
worker's pid), `_parent_pid`, `_sub_process_started` (whether the event
object exists and is set), and `_instances`. -/
structure Registry where
  mainProcess : Option Nat
  parentPid : Option Nat
  subProcessStarted : Option Bool
  instances : List Monitor
deriving DecidableEq, Repr

/-- `list.remove(self)` with the `ValueError` swallowed: drop the first
monitor with the given identity, or leave the list unchanged. -/
def removeFirstById : List Monitor → Nat → List Monitor
  | [], _ => []
  | m :: rest, i => if m.id = i then rest else m :: removeFirstById rest i

/-- `BackgroundMonitor.stop` (mp.py lines 125-137).  Returns the updated
monitor and registry.  If `_thread` is falsy: plain return.  Otherwise
set `_event` when `is_subprocess_alive()` is truthy; then, when
`_thread` is an actual `Thread`, remove `self` from `_instances` and set
`_thread = None`. -/
def Monitor.stop (env : ProcEnv) (reg : Registry) (m : Monitor) :
    Monitor × Registry :=
  if ¬ m.thread.isTruthy then (m, reg)
  else
    let m1 :=
      if truthy (is_subprocess_alive env reg.mainProcess) then
        { m with event := true }
      else m
    if m.thread.isThread then
      ({ m1 with thread := ThreadField.null },
       { reg with instances := removeFirstById reg.instances m.id })
    else (m1, reg)

/-- `BackgroundMonitor.is_alive` (mp.py lines 233-237), as the Python
truthiness of the returned value (the subprocess branch chains `and`, so
the raw value may be `None`; its truthiness is what callers branch on).
`is_subprocess()` is `bool(cls._main_process)`. -/
def Monitor.is_alive (env : ProcEnv) (reg : Registry) (m : Monitor) : Bool :=
  if reg.mainProcess.isSome then
    truthy (is_subprocess_alive env reg.mainProcess)
      && m.startEv && !m.doneEv
  else
    m.thread.isLiveThread

/-! ## The daemon poll loop as a trace -/

/-- Observable actions of one watcher run. `tick` is one `_daemon_step`
call; `postExec` is the invocation of the `post_execution` post-run
hook; `setDone` is the `self._done_ev.set()` its base body performs. -/
inductive Action
  | setStarted
  | tick
  | postExec
  | setDone
deriving DecidableEq, Repr

/-- `BackgroundMonitor.daemon` (mp.py lines 139-143) as a trace.  The
input list gives the successive outcomes of `self._event.wait(timeout)`:
`true` means the stop event was observed set (break), `false` means the
wait timed out (run one `_daemon_step` tick and loop).  The list is the
(finite) prefix of wait outcomes; a run whose outcomes are exhausted
contributes no further actions. -/
def daemonTrace : List Bool → List Action
  | [] => []
  | true :: _ => []
  | false :: rest => Action.tick :: daemonTrace rest

/-- `BackgroundMonitor._daemon` (mp.py lines 145-148) followed by the
base `post_execution` (lines 150-151): set `_start_ev`, run the poll
loop, invoke the post-run hook, whose base body sets `_done_ev`. -/
def daemonFull (waits : List Bool) : List Action :=
  Action.setStarted :: (daemonTrace waits ++ [Action.postExec, Action.setDone])

/-! ## start / start_all -/

/-- `BackgroundMonitor.set_subprocess_mode` (mp.py lines 153-158):
mark `_subprocess = True` and replace the three events with fresh
(unset) process events. -/
def Monitor.set_subprocess_mode (m : Monitor) : Monitor :=
  { m with subprocess := true, doneEv := false, startEv := false, event := false }

/-- `BackgroundMonitor._start` (mp.py lines 120-123): spawn the daemon
thread; the handle is a live `Thread`. -/
def Monitor.startUnit (m : Monitor) : Monitor :=
  { m with thread := ThreadField.thread true }

/-- `BackgroundMonitor.start_all` (mp.py lines 163-180), returning the
updated registry together with the number of worker processes spawned by
this call (0 or 1).  `currentPid` is `os.getpid()`; `freshHandle` is the
pid the OS gives a newly spawned worker.  Thread mode starts every
instance; subprocess mode only acts when `_main_process` is absent:
record the parent pid, create the (cleared) started event, switch every
instance to subprocess mode, and spawn the single worker process. -/
def start_all (reg : Registry) (executeInSubprocess : Bool)
    (currentPid freshHandle : Nat) : Registry × Nat :=
  if ¬ executeInSubprocess then
    ({ reg with instances := reg.instances.map Monitor.startUnit }, 0)
  else if reg.mainProcess.isNone then
    ({ reg with
        parentPid := some currentPid,
        subProcessStarted := some false,
        instances := reg.instances.map Monitor.set_subprocess_mode,
        mainProcess := some freshHandle }, 1)
  else (reg, 0)

/-! ## SafeQueue (the serialized write queue)

`SafeQueue` wraps a `SimpleQueue` and hands every blocking `put` to a
single class-level `ThreadPool` keyed by the owning process id.  We
model the class-level pool state, the underlying queue contents, and the
tasks handed to the pool but not yet executed; a task records the
identity (generation) of the pool it was dispatched to.  The
double-checked locking in `put` collapses in this sequential model: the
shared lock makes the check-and-recreate atomic, which is exactly what a
single atomic step is. -/

/-- Class-level `SafeQueue` state: `__thread_pool_pid` and the identity
of `__thread_pool` (bumped each time a new `ThreadPool` is created). -/
structure PoolState where
  threadPoolPid : Option Nat
  poolGen : Nat
deriving DecidableEq, Repr

/-- One `SafeQueue` instance: the class-level pool state, the items in
the underlying `SimpleQueue` (front = next to `get`), and the pending
`apply_async` write tasks, each tagged with the pool generation it was
dispatched to. -/
structure SafeQueue (α : Type) where
  pool : PoolState
  queue : List α
  pending : List (Nat × α)
deriving DecidableEq, Repr

/-- `SafeQueue.put` (mp.py lines 40-50): if `os.getpid()` differs from
`__thread_pool_pid`, atomically (under the shared lock) rebind the pool
to the calling pid and create a fresh `ThreadPool`; then dispatch the
blocking `self._q.put` to the (possibly new) pool.  The function is
total: `put` raises nothing. -/
def SafeQueue.put {α : Type} (callerPid : Nat) (obj : α) (s : SafeQueue α) :
    SafeQueue α :=
  let pool :=
    if s.pool.threadPoolPid ≠ some callerPid then
      { threadPoolPid := some callerPid, poolGen := s.pool.poolGen + 1 }
    else s.pool
  { s with pool := pool, pending := s.pending ++ [(pool.poolGen, obj)] }

/-- The background worker executing its queued write tasks: each pending
`self._q.put(obj)` appends `obj` to the underlying queue, in dispatch
order. -/
def SafeQueue.flush {α : Type} (s : SafeQueue α) : SafeQueue α :=
  { s with queue := s.queue ++ s.pending.map Prod.snd, pending := [] }

/-- `SafeQueue.get` (mp.py lines 37-38): `self._q.get()`, a blocking
read.  In the sequential model the block until data is available is the
worker draining its pending writes first; `none` models a `get` that
would block forever (nothing buffered, nothing pending). -/
def SafeQueue.get {α : Type} (s : SafeQueue α) : Option (α × SafeQueue α) :=
  let s1 := s.flush
  match s1.queue with
  | [] => Option.none
  | x :: rest => some (x, { s1 with queue := rest })

/-- A fresh `SafeQueue` as `__init__` leaves it (empty queue, no pending
writes), over a given class-level pool state. -/
def SafeQueue.fresh {α : Type} (pool : PoolState) : SafeQueue α :=
  { pool := pool, queue := [], pending := [] }

/-! ## SingletonLock (the deferred lock)

`SingletonLock` defers creating the `multiprocessing.Lock` to first use.
We model an instance as the optional underlying lock with its held
state, plus a ghost counter of how many OS lock allocations this
instance has performed (to state `create` idempotence). -/

/-- One `SingletonLock`: `lock = none` is `self._lock is None`;
`some held` is an allocated OS lock and whether it is currently held.
`allocCount` counts `Lock()` allocations made for this instance. -/
structure SingletonLock where
  lock : Option Bool
  allocCount : Nat
deriving DecidableEq, Repr

/-- A `SingletonLock` as `__init__` leaves it: no lock allocated yet. -/
def SingletonLock.init : SingletonLock :=
  { lock := Option.none, allocCount := 0 }

/-- `SingletonLock.create` (mp.py lines 69-71): allocate the OS lock
only when `self._lock is None`. -/
def SingletonLock.create (s : SingletonLock) : SingletonLock :=
  match s.lock with
  | Option.none => { lock := some false, allocCount := s.allocCount + 1 }
  | some _ => s

/-- `SingletonLock.acquire` (mp.py lines 60-62): `create()` then
`self._lock.acquire()`.  In the single-threaded model the acquire always
succeeds and returns `True` (the second component). -/
def SingletonLock.acquire (s : SingletonLock) : SingletonLock × Bool :=
  let s1 := s.create
  ({ s1 with lock := some true }, true)

/-- `SingletonLock.release` (mp.py lines 64-67): `None` when no lock was
ever created; otherwise delegate.  Releasing an allocated lock that is
not held raises (`Except.error`), as `multiprocessing.Lock.release`
does. -/
def SingletonLock.release (s : SingletonLock) : Except Unit SingletonLock :=
  match s.lock with
  | Option.none => Except.ok s
  | some held =>
    if held then Except.ok { s with lock := some false }
    else Except.error ()

/-- Errors a Python 3 `raise` statement can put in flight here.  `orig`
is the exception raised by the body of a `with` block, identified by a
code; `typeErrorRaisingTuple` is the `TypeError` Python 3 raises for a
`raise` whose operand is a tuple rather than a `BaseException`. -/
inductive PyError
  | orig (info : Nat)
  | typeErrorRaisingTuple
deriving DecidableEq, Repr

/-- `SingletonLock.__exit__` (mp.py lines 83-88): release, then
`if any((exc_type, exc_value, traceback,)): raise (exc_type, exc_value,
traceback)`.  When an exception is in flight the triple is truthy and
the `raise` of a tuple itself raises `TypeError` (Python 3: exceptions
must derive from `BaseException`), which propagates out of `__exit__` in
place of the original error.  The release never raises here because the
lock is held on context exit; we take the released state.  Returns the
lock state and the error propagating to the caller. -/
def SingletonLock.exitCtx (s : SingletonLock) (inflight : Option Nat) :
    SingletonLock × Option PyError :=
  let s1 :=
    match s.release with
    | Except.ok s1 => s1
    | Except.error _ => s
  match inflight with
  | Option.none => (s1, Option.none)
  | some _ => (s1, some PyError.typeErrorRaisingTuple)

/-- A `with SingletonLock_instance:` block whose body either completes
(`inflight = none`) or raises an exception (`inflight = some e`):
`__enter__` acquires, the body runs, `__exit__` runs with the in-flight
exception triple.  Result: the lock state after the block, and the error
(if any) that reaches the caller. -/
def SingletonLock.withCtx (s : SingletonLock) (inflight : Option Nat) :
    SingletonLock × Option PyError :=
  let s1 := (s.acquire).1
  s1.exitCtx inflight

/-! ## make_deterministic (trains/utilities/seed.py)

`make_deterministic` reduces its seed (`seed = int(seed) & 0xFFFFFFFF`)
and then seeds each library that is importable/loaded, swallowing
per-library failures.  We model the run as the list of seeding calls it
attempts, in source order, over an environment saying which optional
libraries are available. -/

/-- Which optional libraries the environment provides: `np`/`cv2` from
the module-level imports, `torch`/`tf` from `sys.modules`, and the
tensorflow eager-mode bypass flag computed at lines 57-63. -/
structure SeedEnv where
  npPresent : Bool
  cv2Present : Bool
  torchPresent : Bool
  tfPresent : Bool
  eagerModeBypass : Bool
deriving DecidableEq, Repr

/-- Seeding calls `make_deterministic` performs, each carrying the seed
value passed to the library. -/
inductive SeedCall
  | cudnnDeterministic
  | randomSeed (s : Nat)
  | npRandomSeed (s : Nat)
  | cv2SetRNGSeed (s : Nat)
  | torchManualSeed (s : Nat)
  | torchCudaManualSeed (s : Nat)
  | tfSetRandomSeed (s : Nat)
  | tfRandomSetRandomSeed (s : Nat)
deriving DecidableEq, Repr

/-- `int(seed) & 0xFFFFFFFF` on a Python int: the low 32 bits, always
non-negative (Lean's `Int.emod` with a positive modulus matches Python
`&` with a non-negative mask). -/
def lowBits32 (seed : Int) : Nat :=
  (seed % (4294967296 : Int)).toNat

/-- `make_deterministic(seed, cudnn_deterministic)` (seed.py lines
14-73) as the list of seeding calls it attempts, in source order.  The
cudnn branch only has an effect when torch is loaded (otherwise the
attribute access raises and is swallowed); the tensorflow calls are
skipped under the eager-mode bypass. -/
def make_deterministic (env : SeedEnv) (seed : Int) (cudnnDeterministic : Bool) :
    List SeedCall :=
  let s := lowBits32 seed
  (if cudnnDeterministic && env.torchPresent then [SeedCall.cudnnDeterministic] else [])
  ++ [SeedCall.randomSeed s]
  ++ (if env.npPresent then [SeedCall.npRandomSeed s] else [])
  ++ (if env.cv2Present then [SeedCall.cv2SetRNGSeed s] else [])
  ++ (if env.torchPresent then
        [SeedCall.torchManualSeed s, SeedCall.torchCudaManualSeed s] else [])
  ++ (if env.tfPresent && !env.eagerModeBypass then
        [SeedCall.tfSetRandomSeed s, SeedCall.tfRandomSetRandomSeed s] else [])

/-! ## Helper lemmas -/

/-- `create` always leaves an allocated lock behind. -/
theorem SingletonLock.create_lock_isSome (s : SingletonLock) :
    s.create.lock.isSome := by
  cases h : s.lock <;> simp [SingletonLock.create, h]

/-- `create` on an already-allocated lock is the identity. -/
theorem SingletonLock.create_of_isSome (s : SingletonLock)
    (h : s.lock.isSome) : s.create = s := by
  cases hl : s.lock with
  | none => rw [hl] at h; simp at h
  | some b => simp [SingletonLock.create, hl]

/-- The daemon loop's trace is always a run of ticks: one tick per
timed-out wait, ending at the first wait that observes the stop event. -/
theorem daemonTrace_replicate (waits : List Bool) :
    daemonTrace waits =
      List.replicate (waits.takeWhile (fun b => !b)).length Action.tick := by
  induction waits with
  | nil => rfl
  | cons b rest ih => cases b <;> simp [daemonTrace, List.takeWhile, ih, List.replicate]

/-- The fallback scan returns `false` when the target pid is absent. -/
theorem scanDescendants_not_mem (l : List (Nat × ProcStatus)) (pid : Nat)
    (h : ∀ q ∈ l, q.1 ≠ pid) : scanDescendants l pid = false := by
  induction l with
  | nil => rfl
  | cons q rest ih =>
    have hq : q.1 ≠ pid := h q (List.mem_cons_self q rest)
    simp [scanDescendants, hq]
    exact ih fun r hr => h r (List.mem_cons_of_mem q hr)

/-- The fallback scan answers from the first descendant matching the
target pid. -/
theorem scanDescendants_found (pre rest : List (Nat × ProcStatus))
    (pid : Nat) (st : ProcStatus) (h : ∀ q ∈ pre, q.1 ≠ pid) :
    scanDescendants (pre ++ (pid, st) :: rest) pid =
      decide (st ≠ ProcStatus.zombie) := by
  induction pre with
  | nil => simp [scanDescendants]
  | cons q pre0 ih =>
    have hq : q.1 ≠ pid := h q (List.mem_cons_self q pre0)
    simp [scanDescendants, hq]
    simpa using ih fun r hr => h r (List.mem_cons_of_mem q hr)

/-! ## Claims -/

/-- C10: `make_deterministic` reduces the seed to its low 32 bits
(`int(seed) & 0xFFFFFFFF`) before seeding any library, so two seeds
congruent modulo `2^32` produce identical seeding behavior across all
seeded libraries, in every environment and for either cudnn flag. -/
theorem make_deterministic_low_bits (seed1 seed2 : Int)
    (h : seed1 % 4294967296 = seed2 % 4294967296) :
    ∀ (env : SeedEnv) (cudnn : Bool),
      make_deterministic env seed1 cudnn = make_deterministic env seed2 cudnn ∧
      make_deterministic env seed1 cudnn =
        make_deterministic env (seed1 % 4294967296) cudnn := by
  intro env cudnn
  have hlow : lowBits32 seed1 = lowBits32 seed2 := by
    simp [lowBits32, h]
  have hself : lowBits32 (seed1 % 4294967296) = lowBits32 seed1 := by
    simp [lowBits32, Int.emod_emod_of_dvd seed1 dvd_rfl]
  constructor
  · simp [make_deterministic, hlow]
  · simp [make_deterministic, hself]

/-- Witness for C10 at seeds `1337` and `1337 + 2^32` in a full
environment. -/
theorem make_deterministic_low_bits_witness :
    (1337 : Int) % 4294967296 = (4294968633 : Int) % 4294967296 ∧
    make_deterministic ⟨true, true, true, true, false⟩ 1337 true =
      make_deterministic ⟨true, true, true, true, false⟩ 4294968633 true :=
  ⟨by decide,
   (make_deterministic_low_bits 1337 4294968633 (by decide)
      ⟨true, true, true, true, false⟩ true).1⟩

/-- C9: `SingletonLock.create` is idempotent — repeated calls (including
the registry-driven ones after a fork) allocate the OS lock exactly once
per instance, and `acquire`/`release` still succeed after any number of
`create` calls. -/
theorem singletonLock_create_idempotent (s : SingletonLock) (n : Nat) :
    s.create.create = s.create ∧
    (SingletonLock.create^[n + 1] SingletonLock.init).allocCount = 1 ∧
    (SingletonLock.create^[n] s.create).acquire.2 = true ∧
    (SingletonLock.create^[n] s.create).acquire.1.release =
      Except.ok { (SingletonLock.create^[n] s.create).acquire.1 with
                    lock := some false } := by
  have hfix : ∀ t : SingletonLock, t.create.create = t.create := fun t =>
    SingletonLock.create_of_isSome t.create (SingletonLock.create_lock_isSome t)
  refine ⟨hfix s, ?_, ?_, ?_⟩
  · rw [Function.iterate_succ_apply,
        Function.iterate_fixed (hfix SingletonLock.init) n]
    rfl
  · rfl
  · simp [SingletonLock.acquire, SingletonLock.release]

/-- C8 (code bug): inside a `with` block over a `SingletonLock`, exit
does release the lock unconditionally, but when an error is in flight
`__exit__` executes `raise (exc_type, exc_value, traceback)` — raising a
tuple, which in Python 3 raises `TypeError` instead of re-raising the
original error.  At the concrete input (fresh lock, body raising error
code 7) the caller receives the `TypeError`, not error 7; with no error
in flight the block is clean. -/
theorem singletonLock_exit_raises_typeError :
    SingletonLock.withCtx SingletonLock.init (some 7) =
      ({ lock := some false, allocCount := 1 }, some PyError.typeErrorRaisingTuple) ∧
    SingletonLock.withCtx SingletonLock.init (some 7) ≠
      ({ lock := some false, allocCount := 1 }, some (PyError.orig 7)) ∧
    SingletonLock.withCtx SingletonLock.init Option.none =
      ({ lock := some false, allocCount := 1 }, Option.none) := by decide

/-- C7: `put` followed immediately by `get` on a fresh queue
(single-process, single-threaded) returns the put item unchanged. -/
theorem safeQueue_put_get_roundtrip (pool : PoolState) (callerPid x : Nat) :
    SafeQueue.get (SafeQueue.put callerPid x (SafeQueue.fresh pool)) =
      some (x, SafeQueue.fresh (SafeQueue.put callerPid x
                  (SafeQueue.fresh pool)).pool) := by
  simp [SafeQueue.get, SafeQueue.put, SafeQueue.fresh, SafeQueue.flush]

/-- C6: after every `put`, the worker-owner pid equals the caller's pid;
when they differed, the pool was recreated (fresh generation) and bound
to the new pid before the item was dispatched — the dispatched task is
tagged with the post-rebind pool generation.  `put` is total, so it
never raises. -/
theorem safeQueue_put_rebinds_worker (s : SafeQueue Nat) (callerPid obj : Nat) :
    ((s.put callerPid obj).pool.threadPoolPid = some callerPid) ∧
    ((s.put callerPid obj).pending =
        s.pending ++ [((s.put callerPid obj).pool.poolGen, obj)]) ∧
    (s.pool.threadPoolPid = some callerPid → (s.put callerPid obj).pool = s.pool) ∧
    (s.pool.threadPoolPid ≠ some callerPid →
        (s.put callerPid obj).pool.poolGen = s.pool.poolGen + 1) := by
  by_cases h : s.pool.threadPoolPid = some callerPid
  · refine ⟨?_, ?_, fun _ => ?_, fun hc => absurd h hc⟩ <;>
      simp [SafeQueue.put, h]
  · refine ⟨?_, ?_, fun hc => absurd hc h, fun _ => ?_⟩ <;>
      simp [SafeQueue.put, h]

/-- Witness for C6: a caller in pid 9 while the pool is owned by pid 5
gets the pool rebound to pid 9 with a fresh generation. -/
theorem safeQueue_put_rebinds_worker_witness :
    ((SafeQueue.put 9 3 (⟨⟨some 5, 0⟩, [], []⟩ : SafeQueue Nat)).pool.threadPoolPid
        = some 9) ∧
    ((SafeQueue.put 9 3 (⟨⟨some 5, 0⟩, [], []⟩ : SafeQueue Nat)).pool.poolGen = 1) :=
  ⟨(safeQueue_put_rebinds_worker ⟨⟨some 5, 0⟩, [], []⟩ 9 3).1,
   (safeQueue_put_rebinds_worker ⟨⟨some 5, 0⟩, [], []⟩ 9 3).2.2.2 (by decide)⟩

/-- C2: for a run whose stop signal is eventually observed, the trace of
`_daemon` is `started_signal` first, then one tick per timed-out wait,
then (on the wait that observes the signal set) the break, the post-run
hook, and finally `done_signal` — so `started_signal` is set strictly
before the first tick and `done_signal` strictly after the last tick and
after the hook. -/
theorem daemon_signal_ordering (waits : List Bool) (_h : true ∈ waits) :
    (∃ k, daemonFull waits =
        Action.setStarted ::
          (List.replicate k Action.tick ++ [Action.postExec, Action.setDone])) ∧
    (∀ rest, daemonTrace (false :: rest) = Action.tick :: daemonTrace rest) ∧
    (∀ rest, daemonTrace (true :: rest) = []) ∧
    (daemonFull waits).head? = some Action.setStarted ∧
    (daemonFull waits).getLast? = some Action.setDone := by
  refine ⟨⟨(waits.takeWhile (fun b => !b)).length, ?_⟩,
          fun rest => rfl, fun rest => rfl, rfl, ?_⟩
  · simp [daemonFull, daemonTrace_replicate]
  · have hsplit : daemonFull waits =
        (Action.setStarted :: (daemonTrace waits ++ [Action.postExec])) ++
          [Action.setDone] := by
      simp [daemonFull]
    rw [hsplit, List.getLast?_concat]

/-- Witness for C2 at the wait-outcome sequence (timeout, signal set). -/
theorem daemon_signal_ordering_witness :
    true ∈ [false, true] ∧
    (daemonFull [false, true]).getLast? = some Action.setDone :=
  ⟨by decide, (daemon_signal_ordering [false, true] (by decide)).2.2.2.2⟩

/-- C3: `start_all(True)` is a no-op (no registry change, no spawn) when
a worker handle already exists; after any `start_all(True)` a handle
exists, so a second call is always a no-op, and across two consecutive
calls at most one worker process is ever spawned. -/
theorem start_all_subprocess_idempotent (reg : Registry) (p1 h1 p2 h2 : Nat) :
    (reg.mainProcess.isSome → start_all reg true p1 h1 = (reg, 0)) ∧
    (start_all reg true p1 h1).1.mainProcess.isSome ∧
    start_all (start_all reg true p1 h1).1 true p2 h2 =
      ((start_all reg true p1 h1).1, 0) ∧
    (start_all reg true p1 h1).2 +
      (start_all (start_all reg true p1 h1).1 true p2 h2).2 ≤ 1 := by
  cases hm : reg.mainProcess with
  | none => simp [start_all, hm]
  | some v => simp [start_all, hm]

/-- Witness for C3: a registry already holding worker handle 3 is left
unchanged, with no spawn. -/
theorem start_all_subprocess_idempotent_witness :
    ((⟨some 3, Option.none, Option.none, []⟩ : Registry).mainProcess.isSome) ∧
    start_all ⟨some 3, Option.none, Option.none, []⟩ true 1 2 =
      (⟨some 3, Option.none, Option.none, []⟩, 0) :=
  ⟨by decide,
   (start_all_subprocess_idempotent ⟨some 3, Option.none, Option.none, []⟩
      1 2 1 2).1 (by decide)⟩

/-- C4: `is_subprocess_alive` returns false when no worker was ever
launched; when the direct check raises it falls back to the descendant
scan — parent unfindable gives the indeterminate `None` (not a hard
false, and nothing raises: the function is total), the remembered pid
found among descendants gives alive iff its status is not zombie, and a
pid absent from the descendants gives not alive. -/
theorem is_subprocess_alive_cases (env : ProcEnv) (pid : Nat)
    (st : ProcStatus) (pre rest : List (Nat × ProcStatus)) :
    (is_subprocess_alive env Option.none = some false) ∧
    ((∃ e, directCheck env = Except.error e) → env.parentFound = false →
        is_subprocess_alive env (some pid) = Option.none) ∧
    ((∃ e, directCheck env = Except.error e) → env.parentFound = true →
        env.descendants = pre ++ (pid, st) :: rest →
        (∀ q ∈ pre, q.1 ≠ pid) →
        is_subprocess_alive env (some pid) =
          some (decide (st ≠ ProcStatus.zombie))) ∧
    ((∃ e, directCheck env = Except.error e) → env.parentFound = true →
        (∀ q ∈ env.descendants, q.1 ≠ pid) →
        is_subprocess_alive env (some pid) = some false) := by
  refine ⟨rfl, ?_, ?_, ?_⟩
  · rintro ⟨e, he⟩ hp
    simp [is_subprocess_alive, he, hp]
  · rintro ⟨e, he⟩ hp hd hpre
    simp [is_subprocess_alive, he, hp, hd,
          scanDescendants_found pre rest pid st hpre]
  · rintro ⟨e, he⟩ hp habs
    simp [is_subprocess_alive, he, hp, scanDescendants_not_mem _ _ habs]

/-- Witness for C4: direct check raising, parent found, remembered pid 7
present among descendants with zombie status — reported not alive. -/
theorem is_subprocess_alive_cases_witness :
    is_subprocess_alive
        ⟨Except.error (), Except.ok ProcStatus.running, true,
          [(4, ProcStatus.running), (7, ProcStatus.zombie)]⟩ (some 7) =
      some false := by
  have h := (is_subprocess_alive_cases
      ⟨Except.error (), Except.ok ProcStatus.running, true,
        [(4, ProcStatus.running), (7, ProcStatus.zombie)]⟩ 7
      ProcStatus.zombie [(4, ProcStatus.running)] []).2.2.1
    ⟨(), rfl⟩ rfl rfl (by decide)
  simpa using h

/-- C5: `is_alive` is true in subprocess mode iff the shared subprocess
liveness probe is truthy and `started_signal` is set and `done_signal`
is not; in thread mode iff the handle is an actual thread whose
underlying thread is alive. -/
theorem is_alive_spec (env : ProcEnv) (reg : Registry) (m : Monitor) :
    (reg.mainProcess.isSome →
      (m.is_alive env reg = true ↔
        (truthy (is_subprocess_alive env reg.mainProcess) = true ∧
         m.startEv = true ∧ m.doneEv = false))) ∧
    (reg.mainProcess = Option.none →
      (m.is_alive env reg = true ↔ m.thread = ThreadField.thread true)) := by
  constructor
  · intro hs
    have : reg.mainProcess.isSome = true := hs
    simp [Monitor.is_alive, this, Bool.and_eq_true, and_assoc]
  · intro hn
    cases ht : m.thread <;>
      simp [Monitor.is_alive, hn, ThreadField.isLiveThread, ht]

/-- Witness for C5: a thread-mode watcher with a live thread and no
subprocess is alive. -/
theorem is_alive_spec_witness :
    Monitor.is_alive ⟨Except.ok true, Except.ok ProcStatus.running, true, []⟩
        ⟨Option.none, Option.none, Option.none, []⟩
        ⟨0, false, false, false, ThreadField.thread true, false, 5⟩ = true :=
  ((is_alive_spec ⟨Except.ok true, Except.ok ProcStatus.running, true, []⟩
      ⟨Option.none, Option.none, Option.none, []⟩
      ⟨0, false, false, false, ThreadField.thread true, false, 5⟩).2 rfl).mpr rfl

/-- C1 counterexample: a thread-mode watcher whose thread is alive, in a
registry that never launched a subprocess.  The claim says `stop()` sets
the stop signal because the hosting execution unit (the thread) is
alive; the code only consults `is_subprocess_alive()`, which is false
here, so the stop signal stays unset. -/
theorem stop_no_signal_counterexample :
    ((⟨0, false, false, false, ThreadField.thread true, false, 5⟩ : Monitor).thread
        = ThreadField.thread true) ∧
    (Monitor.stop ⟨Except.ok true, Except.ok ProcStatus.running, false, []⟩
        ⟨Option.none, Option.none, Option.none,
          [⟨0, false, false, false, ThreadField.thread true, false, 5⟩]⟩
        ⟨0, false, false, false, ThreadField.thread true, false, 5⟩).1.event
      = false :=
  ⟨rfl, rfl⟩

/-- C1 (amended): `stop()` is a no-op when the watcher was never
started; otherwise it sets the stop signal iff `is_subprocess_alive()`
is truthy (not iff the watcher's own thread is alive), and when the
handle is an actual thread it removes the watcher from the registry's
instance list and drops the handle. -/
theorem stop_spec (env : ProcEnv) (reg : Registry) (m : Monitor) :
    (m.thread = ThreadField.null → Monitor.stop env reg m = (m, reg)) ∧
    (m.thread.isTruthy = true →
      ((Monitor.stop env reg m).1.event =
          (m.event || truthy (is_subprocess_alive env reg.mainProcess))) ∧
      (m.thread.isThread = true →
        (Monitor.stop env reg m).1.thread = ThreadField.null ∧
        (Monitor.stop env reg m).2 =
          { reg with instances := removeFirstById reg.instances m.id }) ∧
      (m.thread.isThread = false →
        (Monitor.stop env reg m).1.thread = m.thread ∧
        (Monitor.stop env reg m).2 = reg)) := by
  cases ht : m.thread <;>
    cases hb : truthy (is_subprocess_alive env reg.mainProcess) <;>
      simp [Monitor.stop, ThreadField.isTruthy, ThreadField.isThread, ht, hb]

/-- Witness for C1 (amended): with the shared subprocess alive, `stop()`
on a started thread-mode watcher sets the stop signal. -/
theorem stop_spec_witness :
    ((⟨0, false, false, false, ThreadField.thread true, false, 5⟩ : Monitor).thread.isTruthy
        = true) ∧
    (Monitor.stop ⟨Except.ok true, Except.ok ProcStatus.running, true, []⟩
        ⟨some 2, some 1, some true, []⟩
        ⟨0, false, false, false, ThreadField.thread true, false, 5⟩).1.event =
      (false || truthy (is_subprocess_alive
          ⟨Except.ok true, Except.ok ProcStatus.running, true, []⟩ (some 2))) :=
  ⟨by decide,
   ((stop_spec ⟨Except.ok true, Except.ok ProcStatus.running, true, []⟩
      ⟨some 2, some 1, some true, []⟩
      ⟨0, false, false, false, ThreadField.thread true, false, 5⟩).2 (by decide)).1⟩

end Trains

